import Mathlib

set_option maxRecDepth 100000

/- Shallow embedding of scripts/generate-midi.py: a fixed musical score
   (pad chords, melody phrases, arpeggio patterns) is assembled into
   delta-timed event tracks sharing one tick resolution, and serialized
   into the target event-stream format. -/

/-- One event of a track: NoteOn/NoteOff/ProgramChange messages and the
set_tempo meta message, each carrying its delta-time in ticks. -/
inductive Event where
  | noteOn (note velocity time : Nat)
  | noteOff (note velocity time : Nat)
  | programChange (program time : Nat)
  | setTempo (tempo time : Nat)
deriving DecidableEq

/-- Delta-time of an event, in ticks since the previous event on the track. -/
def Event.time : Event → Nat
  | .noteOn _ _ t => t
  | .noteOff _ _ t => t
  | .programChange _ t => t
  | .setTempo _ t => t

/-- The whole sequence: tick resolution plus the ordered list of tracks. -/
structure MidiFile where
  ticks_per_beat : Nat
  tracks : List (List Event)

/-- Python list repetition `l * n`. -/
def listMul (l : List α) (n : Nat) : List α := (List.replicate n l).flatten

/-- Tempo track: a single set_tempo meta message, tempo=666667, delta 0. -/
def tempo_track : List Event := [Event.setTempo 666667 0]

/-- The four pad chords of the source (D minor, C major, G major, A minor). -/
def pad_chords : List (List Nat) :=
  [[62, 65, 69], [60, 64, 67], [55, 59, 62], [57, 60, 64]]

/-- Body of the pad loop: one NoteOn per chord note at velocity 40 and delta 0,
then NoteOffs for chord[0], chord[1], chord[2] with deltas 960, 0, 0. -/
def padChordEvents (chord : List Nat) : List Event :=
  (chord.map fun note => Event.noteOn note 40 0) ++
    [Event.noteOff (chord.getD 0 0) 0 960,
     Event.noteOff (chord.getD 1 0) 0 0,
     Event.noteOff (chord.getD 2 0) 0 0]

/-- The pad track: program_change 90 then the chord loop over pad_chords * 2. -/
def pad : List Event :=
  Event.programChange 90 0 :: (listMul pad_chords 2).flatMap padChordEvents

def phrase_a : List Nat := [69, 71, 72, 71, 69, 67, 65, 67]
def phrase_b : List Nat := [72, 74, 76, 74, 72, 71, 69, 67]
def phrase_c : List Nat := [67, 69, 71, 72, 71, 69, 67, 65]

/-- Body of the melody loop at phrase index i: NoteOn at velocity 55 and
delta 0, then NoteOff with delta 960 when i % 4 == 3 and 480 otherwise. -/
def melodyNoteEvents (i note : Nat) : List Event :=
  [Event.noteOn note 55 0,
   Event.noteOff note 0 (if i % 4 == 3 then 960 else 480)]

/-- The melody track: program_change 73 then the four phrases a, b, a, c. -/
def melody : List Event :=
  Event.programChange 73 0 ::
    ([phrase_a, phrase_b, phrase_a, phrase_c].flatMap fun phrase =>
      phrase.enum.flatMap fun p => melodyNoteEvents p.1 p.2)

def arp_patterns : List (List Nat) :=
  [[62, 65, 69, 74], [60, 64, 67, 72], [55, 59, 62, 67], [57, 60, 64, 69]]

/-- The arpeggio track: program_change 46 then, over arp_patterns * 4, a
NoteOn at velocity 35 and delta 0 plus a NoteOff with delta 240 per note. -/
def arp : List Event :=
  Event.programChange 46 0 ::
    ((listMul arp_patterns 4).flatMap fun pattern =>
      pattern.flatMap fun note =>
        [Event.noteOn note 35 0, Event.noteOff note 0 240])

/-- The constructed file: ticks_per_beat 480, tracks appended in source order. -/
def mid : MidiFile :=
  { ticks_per_beat := 480, tracks := [tempo_track, pad, melody, arp] }

/-- Modelled from the spec: the `emitChord` operation of §4.1, which the
source inlines in the pad loop — one NoteOn per pitch with delta 0, then one
NoteOff per pitch where only the first NoteOff carries durationTicks and the
rest carry delta 0. Stated separately so it can be compared with the
source-derived `padChordEvents`. -/
def emitChord (track : List Event) (pitches : List Nat)
    (velocity durationTicks : Nat) : List Event :=
  track ++ (pitches.map fun p => Event.noteOn p velocity 0) ++
    (match pitches with
     | [] => []
     | p :: rest =>
         Event.noteOff p 0 durationTicks :: rest.map fun q => Event.noteOff q 0 0)

/-- Well-formedness scan: walking the events with the multiset of currently
open pitches, a NoteOn of an already-open pitch or a NoteOff of a closed
pitch fails, and at track end no pitch may remain open. -/
def trackClosed : List Nat → List Event → Bool
  | held, [] => held.isEmpty
  | held, Event.noteOn n _ _ :: rest =>
      if held.contains n then false else trackClosed (n :: held) rest
  | held, Event.noteOff n _ _ :: rest =>
      if held.contains n then trackClosed (held.erase n) rest else false
  | held, _ :: rest => trackClosed held rest

/-- Every NoteOn in the list is followed, strictly later, by a NoteOff of the
same pitch. -/
def noteOnHasLaterOff (evts : List Event) : Bool :=
  evts.enum.all fun p =>
    match p.2 with
    | Event.noteOn n _ _ =>
        (evts.drop (p.1 + 1)).any fun e =>
          match e with
          | Event.noteOff m _ _ => m == n
          | _ => false
    | _ => true

/-- Base-128 big-endian digits of n (fuel-based so it reduces in the kernel). -/
def vlqDigitsAux : Nat → Nat → List Nat
  | 0, _ => []
  | fuel + 1, n =>
      if n < 128 then [n] else vlqDigitsAux fuel (n / 128) ++ [n % 128]

/-- Set the continuation bit (add 128) on every byte except the last. -/
def markCont : List Nat → List Nat
  | [] => []
  | [d] => [d]
  | d :: rest => (d + 128) :: markCont rest

/-- Modelled from the spec: the variable-length delta-time encoding of the
target format (§6) — base-128 big-endian with a continuation bit on every
byte but the last. The binary writer itself lives in the mido library,
outside src/. -/
def encodeVLQ (n : Nat) : List Nat := markCont (vlqDigitsAux (n + 1) n)

/-- Decode one variable-length quantity from the front of a byte list. -/
def decodeVLQ : List Nat → Nat → Option (Nat × List Nat)
  | [], _ => none
  | b :: rest, acc =>
      if b < 128 then some (acc * 128 + b, rest)
      else decodeVLQ rest (acc * 128 + (b - 128))

/-- Wire encoding of just the delta-times of a track. -/
def encodeDeltas (t : List Event) : List Nat :=
  t.flatMap fun e => encodeVLQ e.time

/-- Fuel-based repeated decoding of variable-length quantities. -/
def decodeDeltasAux : Nat → List Nat → List Nat
  | 0, _ => []
  | fuel + 1, bytes =>
      match decodeVLQ bytes 0 with
      | none => []
      | some (n, rest) => n :: decodeDeltasAux fuel rest

/-- Decode a byte list back into the list of delta-times it encodes. -/
def decodeDeltas (bytes : List Nat) : List Nat :=
  decodeDeltasAux bytes.length bytes

/-- Total duration of a track: the sum of its events' delta-times (§3). -/
def trackDuration (t : List Event) : Nat := (t.map Event.time).sum

/-- Modelled from the spec: the header stores the ticks-per-beat resolution
as a 16-bit big-endian field (§6); the writer lives outside src/. -/
def encodeTicksPerBeat (n : Nat) : List Nat := [n / 256 % 256, n % 256]

/-- Decode the 16-bit big-endian ticks-per-beat header field. -/
def decodeTicksPerBeat : List Nat → Nat
  | hi :: lo :: _ => hi * 256 + lo
  | _ => 0

/-- Modelled from the spec: the Tempo meta-event carries microseconds-per-beat
as a 24-bit big-endian payload (§6); the writer lives outside src/. -/
def encodeTempo (n : Nat) : List Nat :=
  [n / 65536 % 256, n / 256 % 256, n % 256]

/-- Decode the 24-bit big-endian tempo payload. -/
def decodeTempo : List Nat → Nat
  | [b2, b1, b0] => (b2 * 256 + b1) * 256 + b0
  | _ => 0

/-- Modelled from the spec: per-event wire bytes — delta-time in
variable-length form, then a status byte and the data bytes (§6). -/
def eventBytes : Event → List Nat
  | Event.noteOn n v t => encodeVLQ t ++ [144, n, v]
  | Event.noteOff n v t => encodeVLQ t ++ [128, n, v]
  | Event.programChange p t => encodeVLQ t ++ [192, p]
  | Event.setTempo tp t => encodeVLQ t ++ [255, 81, 3] ++ encodeTempo tp

/-- Wire bytes of a whole track, events in list order. -/
def serializeTrack (t : List Event) : List Nat := t.flatMap eventBytes

/-- Modelled from the spec: `serialize` walks the tracks in append order and
the events within each track in list order, after the resolution header
(§4.1); the container writer lives outside src/. -/
def serializeMid : List Nat :=
  encodeTicksPerBeat mid.ticks_per_beat ++ mid.tracks.flatMap serializeTrack

/-- Error kinds of the encoder contract (§7). -/
inductive ErrorKind where
  | InvalidConfiguration
  | InvalidRange
  | IOError
deriving DecidableEq

/-- Modelled from the spec: `setInstrument` (§4.1) appends a ProgramChange
with delta 0 and fails with InvalidRange when programId is outside the
format's 0..127 range. The source only ever calls the mido constructor,
which lives outside src/. -/
def setInstrument (track : List Event) (programId : Nat) :
    Except ErrorKind (List Event) :=
  if programId ≤ 127 then
    Except.ok (track ++ [Event.programChange programId 0])
  else Except.error ErrorKind.InvalidRange

/-- File produced by a build step: none when the step failed (§7 — a failed
invocation produces no output file). -/
def producedFile : Except ErrorKind (List Event) → Option (List Nat)
  | Except.ok t => some (serializeTrack t)
  | Except.error _ => none

/-- Recognizer of the set_tempo meta event. -/
def isTempoEvent : Event → Bool
  | Event.setTempo _ _ => true
  | _ => false

/-- Recognizer of note and program events (the non-meta messages). -/
def isChannelEvent : Event → Bool
  | Event.noteOn _ _ _ => true
  | Event.noteOff _ _ _ => true
  | Event.programChange _ _ => true
  | _ => false

/-- Range check of the format: note and velocity bytes in 0..127, program
ids in 0..127, tempo positive. -/
def eventInBounds : Event → Bool
  | Event.noteOn n v _ => decide (n ≤ 127) && decide (v ≤ 127)
  | Event.noteOff n v _ => decide (n ≤ 127) && decide (v ≤ 127)
  | Event.programChange p _ => decide (p ≤ 127)
  | Event.setTempo tp _ => decide (0 < tp)

/-- Every NoteOn pitch of the event lies in lo..hi (vacuous otherwise). -/
def noteOnPitchInRange (lo hi : Nat) : Event → Bool
  | Event.noteOn n _ _ => decide (lo ≤ n) && decide (n ≤ hi)
  | _ => true

/-- Every NoteOn of the event carries velocity v0 (vacuous otherwise). -/
def noteOnVelocityIs (v0 : Nat) : Event → Bool
  | Event.noteOn _ v _ => v == v0
  | _ => true

/-- Every NoteOff of the event carries velocity v0 (vacuous otherwise). -/
def noteOffVelocityIs (v0 : Nat) : Event → Bool
  | Event.noteOff _ v _ => v == v0
  | _ => true

/-- Claim C1: emitting the chord [62,65,69] at velocity 40 for 960 ticks onto
any track appends three delta-0 NoteOns followed by three NoteOffs with
deltas 960, 0, 0 in that order; every chord the pad builder emits has the
event-delta pattern [0,0,0,960,0,0] (only the first NoteOff carries the full
duration), and the pad track is exactly the fold of emitChord over the
chord table. -/
theorem c1_emitChord_deltas :
    (∀ track : List Event, emitChord track [62, 65, 69] 40 960 =
      track ++ [Event.noteOn 62 40 0, Event.noteOn 65 40 0, Event.noteOn 69 40 0,
        Event.noteOff 62 0 960, Event.noteOff 65 0 0, Event.noteOff 69 0 0]) ∧
    ((listMul pad_chords 2).all fun chord =>
      (padChordEvents chord).map Event.time == [0, 0, 0, 960, 0, 0]) = true ∧
    pad = (listMul pad_chords 2).foldl (fun t c => emitChord t c 40 960)
      [Event.programChange 90 0] := by
  refine ⟨fun track => ?_, by decide, by decide⟩
  simp [emitChord, List.append_assoc]

/-- Claim C2: on each of the three musical tracks every NoteOn is closed by a
strictly later NoteOff of the same pitch, no pitch is ever doubly open, and
the track ends with every note closed. -/
theorem c2_tracks_wellFormed :
    trackClosed [] pad = true ∧ trackClosed [] melody = true ∧
    trackClosed [] arp = true ∧
    noteOnHasLaterOff pad = true ∧ noteOnHasLaterOff melody = true ∧
    noteOnHasLaterOff arp = true := by
  decide

/-- Claim C3: for every track of the sequence, the delta-times sum to the
track's total duration, and encoding the deltas in the variable-length wire
form then decoding reproduces them exactly, hence re-summing reproduces the
total. -/
theorem c3_duration_roundtrip :
    (mid.tracks.all fun t =>
      (decodeDeltas (encodeDeltas t) == t.map Event.time) &&
      ((t.map Event.time).sum == trackDuration t) &&
      ((decodeDeltas (encodeDeltas t)).sum == trackDuration t)) = true := by
  decide

/-- Claim C4: the sequence is built with ticks_per_beat 480 and one Tempo
event of 666667 microseconds per beat, and decoding the encoded header field
and tempo payload — including the header bytes of the serialized stream —
yields back exactly 480 and 666667. -/
theorem c4_header_roundtrip :
    mid.ticks_per_beat = 480 ∧
    tempo_track = [Event.setTempo 666667 0] ∧
    decodeTicksPerBeat (encodeTicksPerBeat mid.ticks_per_beat) = 480 ∧
    decodeTempo (encodeTempo 666667) = 666667 ∧
    decodeTicksPerBeat (serializeMid.take 2) = 480 := by
  decide

/-- Claim C5: the pipeline is deterministic — two runs over the fixed score
produce byte-identical serialized output. -/
theorem c5_deterministic (out1 out2 : List Nat)
    (h1 : out1 = serializeMid) (h2 : out2 = serializeMid) : out1 = out2 :=
  h1.trans h2.symm

/-- Witness for claim C5 at the concrete serialized stream. -/
theorem c5_deterministic_witness : serializeMid = serializeMid :=
  c5_deterministic serializeMid serializeMid rfl rfl

/-- Claim C7: setInstrument with programId 128 fails with InvalidRange on any
track, and the failed step produces no file. -/
theorem c7_setInstrument_invalidRange :
    ∀ track : List Event,
      setInstrument track 128 = Except.error ErrorKind.InvalidRange ∧
      producedFile (setInstrument track 128) = none := by
  intro track
  exact ⟨rfl, rfl⟩

/-- Claim C8: the sequence has at least one track, the tracks appear in
append order (control, pad, melody, arpeggio), and the control track holds
exactly one Tempo meta-event (tempo 666667, delta 0) and no ProgramChange,
NoteOn or NoteOff events. -/
theorem c8_track_order_and_control :
    mid.tracks = [tempo_track, pad, melody, arp] ∧
    mid.tracks ≠ [] ∧
    tempo_track = [Event.setTempo 666667 0] ∧
    (tempo_track.filter isTempoEvent).length = 1 ∧
    (tempo_track.all fun e => !isChannelEvent e) = true := by
  decide

/-- Claim C9: the pad, melody and arpeggio tracks have total durations 7680,
19200 and 15360 ticks respectively, all pairwise unequal. -/
theorem c9_track_durations :
    trackDuration pad = 7680 ∧ trackDuration melody = 19200 ∧
    trackDuration arp = 15360 ∧
    trackDuration pad ≠ trackDuration melody ∧
    trackDuration melody ≠ trackDuration arp ∧
    trackDuration pad ≠ trackDuration arp := by
  decide

/-- Claim C10: every constant the build passes to an event constructor is in
bounds — pitches in 55..76, NoteOn velocities fixed per track (40, 55, 35),
NoteOff velocities 0, program ids and all data bytes in 0..127, tempo and
ticks_per_beat positive — and the three program-change calls all succeed, so
no InvalidRange or InvalidConfiguration branch is reachable. -/
theorem c10_constants_in_bounds :
    ((pad ++ melody ++ arp ++ tempo_track).all eventInBounds) = true ∧
    0 < mid.ticks_per_beat ∧
    ((pad ++ melody ++ arp).all (noteOnPitchInRange 55 76)) = true ∧
    (pad.all (noteOnVelocityIs 40)) = true ∧
    (melody.all (noteOnVelocityIs 55)) = true ∧
    (arp.all (noteOnVelocityIs 35)) = true ∧
    ((pad ++ melody ++ arp).all (noteOffVelocityIs 0)) = true ∧
    ([90, 73, 46].all fun p => (producedFile (setInstrument [] p)).isSome) = true := by
  decide
